import Mathlib

/-!
Shallow embedding of `src/app.py`: a minimal Flask service with two routes,
`GET /` (`index`) and `POST /predict` (`predict`), where `predict` parses the
request body as JSON, unpacks it as keyword arguments into the helper
`iris_prediction(sepal_length, sepal_width, petal_length, petal_width)`, which
opens `model.pkl`, deserializes the model with `joblib.load`, calls
`model.predict` on the single-row batch `[[sepal_length, sepal_width,
petal_length, petal_width]]`, and returns `{"predicted_class": int(predictions[0])}`.
-/

/-- JSON values as produced by Python's `json` / `request.get_json()` parsing.
Python distinguishes `int` from `float` after parsing, so both appear here;
non-integral numbers are represented exactly as rationals. -/
inductive JsonVal where
  | null
  | bool (b : Bool)
  | int (n : Int)
  | num (q : Rat)
  | str (s : String)
  | arr (xs : List JsonVal)
  | obj (kvs : List (String × JsonVal))

/-- Whether a JSON value is numeric (a Python `int` or `float`). -/
def JsonVal.isNumber : JsonVal → Bool
  | .int _ => true
  | .num _ => true
  | _ => false

/-- The model object deserialized from `model.pkl`: an opaque external
predictor mapping a batch of feature rows to a batch of integer class labels.
The external library call may fail (e.g. on rows it cannot convert), which the
`Except` models. -/
def Predictor : Type := List (List JsonVal) → Except Unit (List Int)

/-- Contents of the artifact file `model.pkl` as far as `joblib.load` is
concerned: either malformed serialized data (deserialization raises) or a
well-formed pickle of some predictor. -/
inductive ModelFile where
  | corrupt
  | good (model : Predictor)

/-- `joblib.load(f)`: deserialize the (already opened) artifact file. -/
def joblibLoad : ModelFile → Except Unit Predictor
  | .corrupt => .error ()
  | .good m => .ok m

/-- The ambient process state a request handler runs in: the current contents
of `model.pkl` on disk (`none` = missing or unreadable) and the number of file
handles the process currently holds open. The handlers touch no other state. -/
structure World where
  modelFile : Option ModelFile
  openHandles : Nat

/-- Lines 20-21 of `app.py`:
`with open("model.pkl", "rb") as f: model = joblib.load(f)`.
If `open` fails no handle is acquired; otherwise a handle is acquired, the file
is deserialized, and the `with` block releases the handle on both the success
and the failure path of `joblib.load`. Returns the load outcome and the world
after the block. -/
def loadArtifact (w : World) : Except Unit Predictor × World :=
  match w.modelFile with
  | none => (Except.error (), w)
  | some file =>
      let wOpen : World := { w with openHandles := w.openHandles + 1 }
      let r := joblibLoad file
      let wClosed : World := { wOpen with openHandles := wOpen.openHandles - 1 }
      (r, wClosed)

/-- The failure outcomes a `/predict` request can surface (the spec's error
taxonomy plus the two raw Python failures the code can also raise:
`model.predict` raising inside the library, and `predictions[0]` on an empty
result). -/
inductive IrisError where
  | malformedRequest
  | artifactUnavailable
  | predictorFailure
  | emptyPredictions
deriving DecidableEq

/-- Lines 13-30 of `app.py`: the helper `iris_prediction`. Loads the model
from `model.pkl`, builds `X = [[sepal_length, sepal_width, petal_length,
petal_width]]`, computes `predictions = model.predict(X)`, and returns
`{"predicted_class": int(predictions[0])}`. Exceptions propagate unchanged
(labelled by `IrisError`); the world records the file-handle effect. -/
def iris_prediction (w : World)
    (sepal_length sepal_width petal_length petal_width : JsonVal) :
    Except IrisError JsonVal × World :=
  match loadArtifact w with
  | (.error _, w1) => (.error .artifactUnavailable, w1)
  | (.ok model, w1) =>
    let X := [[sepal_length, sepal_width, petal_length, petal_width]]
    match model X with
    | .error _ => (.error .predictorFailure, w1)
    | .ok [] => (.error .emptyPredictions, w1)
    | .ok (p :: _) => (.ok (.obj [("predicted_class", .int p)]), w1)

/-- The exact parameter names of `iris_prediction`, in declaration order. -/
def irisFields : List String :=
  ["sepal_length", "sepal_width", "petal_length", "petal_width"]

/-- Python keyword-argument binding for `iris_prediction(**request_json)`:
succeeds (returning the four bound values in declaration order) exactly when
every key of the dict is one of the four parameter names and each of the four
names is present; a missing name or an unexpected key raises `TypeError`. -/
def bindIrisKwargs (d : List (String × JsonVal)) :
    Option (JsonVal × JsonVal × JsonVal × JsonVal) :=
  if d.all (fun kv => irisFields.contains kv.1) then
    match d.lookup "sepal_length", d.lookup "sepal_width",
          d.lookup "petal_length", d.lookup "petal_width" with
    | some a, some b, some c, some e => some (a, b, c, e)
    | _, _, _, _ => none
  else none

/-- Lines 38-49 of `app.py`: the `/predict` route. `request.get_json()` yields
`none` (no JSON body) or a parsed JSON value; anything that is not a JSON
object, and any object whose keys do not bind the four parameters exactly,
makes `iris_prediction(**request_json)` raise a `TypeError`
(`MalformedRequest`). Otherwise the helper runs and its result dict is
serialized by `json.dumps` (kept structured here). -/
def predict (w : World) (request_json : Option JsonVal) :
    Except IrisError JsonVal × World :=
  match request_json with
  | some (.obj d) =>
    match bindIrisKwargs d with
    | some (a, b, c, e) => iris_prediction w a b c e
    | none => (.error .malformedRequest, w)
  | _ => (.error .malformedRequest, w)

/-- Lines 34-36 of `app.py`: the `/` route. The handler ignores the ambient
process state and any request body and returns the fixed text. -/
def index (_w : World) (_body : Option JsonVal) : String :=
  "Hello, world!"

/-- A predictor that labels every row `0`; stands for a deserialized model in
concrete instantiations below. -/
def modelConst : Predictor := fun X => .ok (X.map (fun _ => (0 : Int)))

/-- A world whose artifact file holds a well-formed pickle of `modelConst`. -/
def wGood : World := { modelFile := some (.good modelConst), openHandles := 0 }

/-- A world whose artifact file is missing. -/
def wMissing : World := { modelFile := none, openHandles := 0 }

/-- A well-formed request body: exactly the four fields, numeric values. -/
def dValid : List (String × JsonVal) :=
  [("sepal_length", .int 5), ("sepal_width", .int 3),
   ("petal_length", .int 1), ("petal_width", .int 0)]

/-- A body with the four exact field names but a non-float-coercible string
value in one of them. -/
def dStr : List (String × JsonVal) :=
  [("sepal_length", .str "abc"), ("sepal_width", .int 3),
   ("petal_length", .int 1), ("petal_width", .int 0)]

/-- A body omitting three of the four required fields. -/
def dMissing : List (String × JsonVal) := [("sepal_length", .int 1)]

theorem loadArtifact_world (w : World) : (loadArtifact w).2 = w := by
  obtain ⟨mf, oh⟩ := w
  cases mf <;> simp [loadArtifact]

theorem iris_prediction_world (w : World) (a b c e : JsonVal) :
    (iris_prediction w a b c e).2 = w := by
  unfold iris_prediction
  have hw := loadArtifact_world w
  rcases hload : loadArtifact w with ⟨r, w1⟩
  rw [hload] at hw
  cases r with
  | error u => simpa using hw
  | ok model =>
    simp only
    rcases model [[a, b, c, e]] with u | preds
    · simpa using hw
    · rcases preds with _ | ⟨p, rest⟩ <;> simpa using hw

theorem predict_eq_of_bind_some (w : World) (d : List (String × JsonVal))
    (a b c e : JsonVal) (hb : bindIrisKwargs d = some (a, b, c, e)) :
    predict w (some (.obj d)) = iris_prediction w a b c e := by
  simp [predict, hb]

theorem predict_eq_of_bind_none (w : World) (d : List (String × JsonVal))
    (hb : bindIrisKwargs d = none) :
    predict w (some (.obj d)) = (.error .malformedRequest, w) := by
  simp [predict, hb]

theorem iris_prediction_fst_good (w : World) (model : Predictor) (a b c e : JsonVal)
    (hart : w.modelFile = some (.good model)) :
    (iris_prediction w a b c e).1 =
      match model [[a, b, c, e]] with
      | .error _ => .error .predictorFailure
      | .ok [] => .error .emptyPredictions
      | .ok (p :: _) => .ok (.obj [("predicted_class", .int p)]) := by
  obtain ⟨mf, oh⟩ := w
  have hmf : mf = some (.good model) := hart
  subst hmf
  rcases hm : model [[a, b, c, e]] with u | (_ | ⟨p, rest⟩) <;>
    simp [iris_prediction, loadArtifact, joblibLoad, hm]

theorem iris_prediction_fst_bad (w : World) (a b c e : JsonVal)
    (hart : w.modelFile = none ∨ w.modelFile = some .corrupt) :
    (iris_prediction w a b c e).1 = .error .artifactUnavailable := by
  obtain ⟨mf, oh⟩ := w
  rcases hart with h | h
  · have hmf : mf = none := h
    subst hmf
    simp [iris_prediction, loadArtifact]
  · have hmf : mf = some ModelFile.corrupt := h
    subst hmf
    simp [iris_prediction, loadArtifact, joblibLoad]

theorem iris_prediction_fst_ne_malformed (w : World) (a b c e : JsonVal) :
    (iris_prediction w a b c e).1 ≠ Except.error IrisError.malformedRequest := by
  obtain ⟨mf, oh⟩ := w
  cases mf with
  | none => simp [iris_prediction, loadArtifact]
  | some file =>
    cases file with
    | corrupt => simp [iris_prediction, loadArtifact, joblibLoad]
    | good model =>
      rcases hm : model [[a, b, c, e]] with u | (_ | ⟨p, rest⟩) <;>
        simp [iris_prediction, loadArtifact, joblibLoad, hm]

theorem iris_prediction_fst_cases (w : World) (a b c e : JsonVal) :
    (∃ p : Int, (iris_prediction w a b c e).1 =
      .ok (.obj [("predicted_class", .int p)])) ∨
    ∃ err, (iris_prediction w a b c e).1 = .error err := by
  obtain ⟨mf, oh⟩ := w
  cases mf with
  | none =>
    exact Or.inr ⟨IrisError.artifactUnavailable, by simp [iris_prediction, loadArtifact]⟩
  | some file =>
    cases file with
    | corrupt =>
      exact Or.inr ⟨IrisError.artifactUnavailable,
        by simp [iris_prediction, loadArtifact, joblibLoad]⟩
    | good model =>
      rcases hm : model [[a, b, c, e]] with u | (_ | ⟨p, rest⟩)
      · exact Or.inr ⟨IrisError.predictorFailure,
          by simp [iris_prediction, loadArtifact, joblibLoad, hm]⟩
      · exact Or.inr ⟨IrisError.emptyPredictions,
          by simp [iris_prediction, loadArtifact, joblibLoad, hm]⟩
      · exact Or.inl ⟨p, by simp [iris_prediction, loadArtifact, joblibLoad, hm]⟩

theorem bindIrisKwargs_some_spec (d : List (String × JsonVal)) (a b c e : JsonVal)
    (h : bindIrisKwargs d = some (a, b, c, e)) :
    d.lookup "sepal_length" = some a ∧ d.lookup "sepal_width" = some b ∧
    d.lookup "petal_length" = some c ∧ d.lookup "petal_width" = some e ∧
    ∀ kv ∈ d, kv.1 ∈ irisFields := by
  unfold bindIrisKwargs at h
  split at h
  case isTrue hall =>
    split at h
    case _ a0 b0 c0 e0 h1 h2 h3 h4 =>
      obtain ⟨ha, hb, hc, he⟩ : a0 = a ∧ b0 = b ∧ c0 = c ∧ e0 = e := by
        have := Option.some.inj h
        simpa [Prod.ext_iff] using this
      subst ha; subst hb; subst hc; subst he
      refine ⟨h1, h2, h3, h4, fun kv hkv => ?_⟩
      have := List.all_eq_true.mp hall kv hkv
      simpa using this
    case _ => exact absurd h (by simp)
  case isFalse => exact absurd h (by simp)

theorem predict_world (w : World) (b : Option JsonVal) : (predict w b).2 = w := by
  unfold predict
  rcases b with _ | v
  · rfl
  · rcases v with _ | _ | _ | _ | _ | _ | d
    all_goals try rfl
    cases hb : bindIrisKwargs d with
    | none => simp [hb]
    | some t =>
      obtain ⟨a, b2, c, e⟩ := t
      simp [hb, iris_prediction_world]

/-- C1: for every request to the predict endpoint whose body is a JSON object
binding exactly the four numeric fields, and for which the artifact loads and
the predictor returns a label batch, the response is a JSON object with
exactly one key, predicted_class, whose value is an integer. -/
theorem predict_valid_input_single_int_key
    (w : World) (d : List (String × JsonVal)) (a b c e : JsonVal)
    (model : Predictor) (p : Int) (rest : List Int)
    (hbind : bindIrisKwargs d = some (a, b, c, e))
    (_hnum : a.isNumber ∧ b.isNumber ∧ c.isNumber ∧ e.isNumber)
    (hart : w.modelFile = some (.good model))
    (hpred : model [[a, b, c, e]] = .ok (p :: rest)) :
    ∃ n : Int, (predict w (some (.obj d))).1 =
      .ok (.obj [("predicted_class", .int n)]) := by
  refine ⟨p, ?_⟩
  rw [predict_eq_of_bind_some w d a b c e hbind,
      iris_prediction_fst_good w model a b c e hart, hpred]

/-- C1 witness: a concrete world, model and four-field numeric body. -/
theorem predict_valid_input_single_int_key_witness :
    ∃ n : Int, (predict wGood (some (.obj dValid))).1 =
      .ok (.obj [("predicted_class", .int n)]) :=
  predict_valid_input_single_int_key wGood dValid (.int 5) (.int 3) (.int 1) (.int 0)
    modelConst 0 [] rfl ⟨rfl, rfl, rfl, rfl⟩ rfl rfl

/-- C2: omitting any one of the four required fields, or supplying any extra
field beyond those four, makes the predict endpoint fail with
MalformedRequest, and no prediction is returned. -/
theorem predict_missing_or_extra_field_fails
    (w : World) (d : List (String × JsonVal))
    (h : (∃ k ∈ irisFields, d.lookup k = none) ∨ ∃ kv ∈ d, kv.1 ∉ irisFields) :
    (predict w (some (.obj d))).1 = .error .malformedRequest ∧
    ∀ r, (predict w (some (.obj d))).1 ≠ .ok r := by
  have hb : bindIrisKwargs d = none := by
    cases hbb : bindIrisKwargs d with
    | none => rfl
    | some t =>
      obtain ⟨a, b, c, e⟩ := t
      obtain ⟨h1, h2, h3, h4, hall⟩ := bindIrisKwargs_some_spec d a b c e hbb
      rcases h with ⟨k, hk, hnone⟩ | ⟨kv, hmem, hnot⟩
      · have hk4 : k = "sepal_length" ∨ k = "sepal_width" ∨
            k = "petal_length" ∨ k = "petal_width" := by
          simpa [irisFields] using hk
        rcases hk4 with rfl | rfl | rfl | rfl
        · rw [hnone] at h1; exact Option.noConfusion h1
        · rw [hnone] at h2; exact Option.noConfusion h2
        · rw [hnone] at h3; exact Option.noConfusion h3
        · rw [hnone] at h4; exact Option.noConfusion h4
      · exact absurd (hall kv hmem) hnot
  rw [predict_eq_of_bind_none w d hb]
  exact ⟨rfl, fun r hr => Except.noConfusion hr⟩

/-- C2 witness: a concrete body missing the field sepal_width. -/
theorem predict_missing_or_extra_field_fails_witness :
    (predict wGood (some (.obj dMissing))).1 = .error .malformedRequest ∧
    ∀ r, (predict wGood (some (.obj dMissing))).1 ≠ .ok r :=
  predict_missing_or_extra_field_fails wGood dMissing
    (Or.inl ⟨"sepal_width", by simp [irisFields], rfl⟩)

/-- C3 counterexample: a body with the four exact field names but a value that
is not coercible to a floating-point number is accepted (no MalformedRequest)
and processed as a prediction, for a deserialized model that labels the row;
the binding performs no coercibility check. -/
theorem predict_noncoercible_value_processed_cex :
    JsonVal.isNumber (.str "abc") = false ∧
    (predict wGood (some (.obj dStr))).1 =
      .ok (.obj [("predicted_class", .int 0)]) :=
  ⟨rfl, rfl⟩

/-- C3 (amended): every accepted predict request (one that does not fail with
MalformedRequest) has all four named fields present and no extras; the values
undergo no float-coercibility check at binding and are forwarded to the
predictor whatever their type. -/
theorem predict_accepted_has_exact_fields
    (w : World) (d : List (String × JsonVal))
    (h : (predict w (some (.obj d))).1 ≠ .error .malformedRequest) :
    (∀ k ∈ irisFields, (d.lookup k).isSome) ∧ ∀ kv ∈ d, kv.1 ∈ irisFields := by
  cases hb : bindIrisKwargs d with
  | none =>
    exact absurd (by rw [predict_eq_of_bind_none w d hb]) h
  | some t =>
    obtain ⟨a, b, c, e⟩ := t
    obtain ⟨h1, h2, h3, h4, hall⟩ := bindIrisKwargs_some_spec d a b c e hb
    refine ⟨fun k hk => ?_, hall⟩
    have hk4 : k = "sepal_length" ∨ k = "sepal_width" ∨
        k = "petal_length" ∨ k = "petal_width" := by
      simpa [irisFields] using hk
    rcases hk4 with rfl | rfl | rfl | rfl
    · simp [h1]
    · simp [h2]
    · simp [h3]
    · simp [h4]

/-- C3 (amended) witness: a concrete accepted request. -/
theorem predict_accepted_has_exact_fields_witness :
    (∀ k ∈ irisFields, ((dValid.lookup k).isSome)) ∧
    ∀ kv ∈ dValid, kv.1 ∈ irisFields :=
  predict_accepted_has_exact_fields wGood dValid
    (fun hc => Except.noConfusion hc)

/-- C4: for every accepted request with a loadable artifact, the response is
computed by the fixed pipeline: the feature row is assembled in the order
sepal_length, sepal_width, petal_length, petal_width; the loaded predictor is
invoked on the single-row batch containing exactly that row; the first element
of the returned label batch is taken; and that integer becomes the value of
predicted_class. -/
theorem predict_pipeline_fixed_order
    (w : World) (d : List (String × JsonVal)) (a b c e : JsonVal)
    (model : Predictor)
    (hbind : bindIrisKwargs d = some (a, b, c, e))
    (hart : w.modelFile = some (.good model)) :
    (predict w (some (.obj d))).1 =
      match model [[a, b, c, e]] with
      | .error _ => .error .predictorFailure
      | .ok [] => .error .emptyPredictions
      | .ok (p :: _) => .ok (.obj [("predicted_class", .int p)]) := by
  rw [predict_eq_of_bind_some w d a b c e hbind]
  exact iris_prediction_fst_good w model a b c e hart

/-- C4 witness: the pipeline at a concrete world, model and body. -/
theorem predict_pipeline_fixed_order_witness :
    (predict wGood (some (.obj dValid))).1 =
      match modelConst [[.int 5, .int 3, .int 1, .int 0]] with
      | .error _ => .error .predictorFailure
      | .ok [] => .error .emptyPredictions
      | .ok (p :: _) => .ok (.obj [("predicted_class", .int p)]) :=
  predict_pipeline_fixed_order wGood dValid (.int 5) (.int 3) (.int 1) (.int 0)
    modelConst rfl rfl

/-- C5 counterexample: with the artifact file missing, a predict request with
a malformed (empty-object) body fails with MalformedRequest, not with
ArtifactUnavailable. -/
theorem predict_missing_artifact_malformed_cex :
    (predict wMissing (some (.obj ([] : List (String × JsonVal))))).1 =
      .error .malformedRequest ∧
    (predict wMissing (some (.obj ([] : List (String × JsonVal))))).1 ≠
      .error .artifactUnavailable :=
  ⟨rfl, fun hc => IrisError.noConfusion (Except.error.inj hc)⟩

/-- C5 (amended): while the artifact file is missing, unreadable, or contains
malformed serialized data, every well-formed predict request (exactly the four
fields) fails with ArtifactUnavailable, propagated to the caller with no
recovery, retry, or fallback; under the same condition every call to the index
endpoint still succeeds. -/
theorem predict_bad_artifact_unavailable
    (w : World) (d : List (String × JsonVal))
    (t : JsonVal × JsonVal × JsonVal × JsonVal)
    (hart : w.modelFile = none ∨ w.modelFile = some .corrupt)
    (hbind : bindIrisKwargs d = some t) :
    (predict w (some (.obj d))).1 = .error .artifactUnavailable ∧
    ∀ body, index w body = "Hello, world!" := by
  obtain ⟨a, b, c, e⟩ := t
  rw [predict_eq_of_bind_some w d a b c e hbind]
  exact ⟨iris_prediction_fst_bad w a b c e hart, fun _ => rfl⟩

/-- C5 (amended) witness: missing artifact, well-formed body. -/
theorem predict_bad_artifact_unavailable_witness :
    (predict wMissing (some (.obj dValid))).1 = .error .artifactUnavailable ∧
    ∀ body, index wMissing body = "Hello, world!" :=
  predict_bad_artifact_unavailable wMissing dValid (.int 5, .int 3, .int 1, .int 0)
    (Or.inl rfl) rfl

/-- C6: with a fixed artifact and a fixed request body, the predict handler
mutates no state (the world after a call equals the world before it), and a
second call run in the world the first call left behind returns the identical
response. -/
theorem predict_idempotent_stateless (w : World) (body : Option JsonVal) :
    (predict w body).2 = w ∧
    (predict (predict w body).2 body).1 = (predict w body).1 := by
  refine ⟨predict_world w body, ?_⟩
  rw [predict_world w body]

/-- C7: every request to the index endpoint succeeds and returns the same
fixed plain-text acknowledgment, regardless of body content and of the process
state; the handler has no failure modes of its own. -/
theorem index_always_hello (w : World) (body : Option JsonVal) :
    index w body = "Hello, world!" := rfl

/-- C8: every predict request is atomic: the outcome is either a success
carrying exactly one labeled result (the single-key predicted_class object) or
an error; no partial result is ever returned and no error is swallowed. -/
theorem predict_atomic_all_or_nothing (w : World) (body : Option JsonVal) :
    (∃ p : Int, (predict w body).1 = .ok (.obj [("predicted_class", .int p)])) ∨
    ∃ err, (predict w body).1 = .error err := by
  rcases body with _ | v
  · exact Or.inr ⟨IrisError.malformedRequest, rfl⟩
  · cases v with
    | obj d =>
      cases hb : bindIrisKwargs d with
      | none =>
        exact Or.inr ⟨IrisError.malformedRequest,
          by rw [predict_eq_of_bind_none w d hb]⟩
      | some t =>
        obtain ⟨a, b, c, e⟩ := t
        rw [predict_eq_of_bind_some w d a b c e hb]
        exact iris_prediction_fst_cases w a b c e
    | null => exact Or.inr ⟨IrisError.malformedRequest, rfl⟩
    | bool b => exact Or.inr ⟨IrisError.malformedRequest, rfl⟩
    | int n => exact Or.inr ⟨IrisError.malformedRequest, rfl⟩
    | num q => exact Or.inr ⟨IrisError.malformedRequest, rfl⟩
    | str s => exact Or.inr ⟨IrisError.malformedRequest, rfl⟩
    | arr xs => exact Or.inr ⟨IrisError.malformedRequest, rfl⟩

/-- C9: the artifact load reads the file fresh on every invocation — the load
outcome is a function of the current file contents only, with no cache across
calls — and the number of open file handles is restored on every exit path,
whether the load succeeds or fails. -/
theorem loadArtifact_fresh_and_handle_released
    (w w2 : World) (h : w.modelFile = w2.modelFile) :
    (loadArtifact w).1 = (loadArtifact w2).1 ∧
    (loadArtifact w).2.openHandles = w.openHandles ∧
    (loadArtifact w2).2.openHandles = w2.openHandles := by
  refine ⟨?_, by rw [loadArtifact_world], by rw [loadArtifact_world]⟩
  obtain ⟨mf, oh⟩ := w
  obtain ⟨mf2, oh2⟩ := w2
  have hmf : mf = mf2 := h
  subst hmf
  cases mf <;> simp [loadArtifact]

/-- C9 witness: two worlds with the same missing file but different handle
counts. -/
theorem loadArtifact_fresh_and_handle_released_witness :
    (loadArtifact ⟨none, 0⟩).1 = (loadArtifact ⟨none, 5⟩).1 ∧
    (loadArtifact ⟨none, 0⟩).2.openHandles = (⟨none, 0⟩ : World).openHandles ∧
    (loadArtifact ⟨none, 5⟩).2.openHandles = (⟨none, 5⟩ : World).openHandles :=
  loadArtifact_fresh_and_handle_released ⟨none, 0⟩ ⟨none, 5⟩ rfl

/-- C10: the handler performs no numeric coercion or validation on the four
bound values: for any JSON values whatsoever in the four exact fields, the
request is accepted and the values are forwarded unmodified into the
single-row batch passed to the predictor, so any failure on non-numeric values
arises only inside the predictor, never at request binding. -/
theorem predict_forwards_values_unmodified
    (w : World) (v1 v2 v3 v4 : JsonVal) (model : Predictor)
    (hart : w.modelFile = some (.good model)) :
    (predict w (some (.obj [("sepal_length", v1), ("sepal_width", v2),
        ("petal_length", v3), ("petal_width", v4)]))).1 =
      match model [[v1, v2, v3, v4]] with
      | .error _ => .error .predictorFailure
      | .ok [] => .error .emptyPredictions
      | .ok (p :: _) => .ok (.obj [("predicted_class", .int p)]) := by
  rw [predict_eq_of_bind_some w
      [("sepal_length", v1), ("sepal_width", v2), ("petal_length", v3), ("petal_width", v4)]
      v1 v2 v3 v4 rfl]
  exact iris_prediction_fst_good w model v1 v2 v3 v4 hart

/-- C10 witness: non-numeric values of four different JSON types are forwarded
unmodified to the predictor. -/
theorem predict_forwards_values_unmodified_witness :
    (predict wGood (some (.obj [("sepal_length", .str "xyz"), ("sepal_width", .null),
        ("petal_length", .bool true), ("petal_width", .arr [])]))).1 =
      match modelConst [[.str "xyz", .null, .bool true, .arr []]] with
      | .error _ => .error .predictorFailure
      | .ok [] => .error .emptyPredictions
      | .ok (p :: _) => .ok (.obj [("predicted_class", .int p)]) :=
  predict_forwards_values_unmodified wGood (.str "xyz") .null (.bool true) (.arr [])
    modelConst rfl
